import Mathlib

/-
Verification of the storage-transaction subsystem of PumpkinDB
(`src/script/mod_storage.rs`): a shallow embedding of the `Handler` module —
its transaction manager, cursor registry, and instruction handlers — together
with theorems settling the specification's claims about it.

The embedding follows the Rust source line by line.  The handlers take `&mut
self` and `&mut Env` in the source, so every embedded handler returns, next to
its `PassResult`, the handler state and the environment *after* the call:
mutations performed before an early `return Err(...)` persist, exactly as they
do through a Rust mutable reference.

Parts of the repository outside `mod_storage.rs` (the VM core's `Env` with its
stack and program queue, the `stack_pop!` and error macros) and the external
collaborators (the lmdb engine, the snowflake id generator) are modelled from
the specification's interface contracts; each such definition carries a
`Modelled from the spec:` doc comment.
-/

namespace PumpkinDB

/-- Raw byte strings, the only data the VM manipulates (`&[u8]` / `Vec<u8>`). -/
abbrev Bytes := List Nat

/-- Process identity (`EnvId` in the source): opaque and stable; modelled as `Nat`. -/
abbrev EnvId := Nat

/-- The script error taxonomy used by `mod_storage.rs` (`Error` in `mod.rs`):
`Reschedule` is the transient retry signal; the others are hard errors. -/
inductive Err
  | Reschedule
  | EmptyStack
  | InvalidValue
  | NoTransaction
  | DuplicateKey
  | UnknownKey
  | Database
  | UnknownInstruction
deriving DecidableEq, Repr

/-- Modelled from the spec: the VM core's per-process environment (`Env` in
`mod.rs`) — a data stack and a pending-program queue where the last pushed
instruction runs first. -/
structure Env where
  stack : List Bytes
  program : List Bytes
deriving DecidableEq, Repr

/-- `env.push(v)` of the VM core. -/
def Env.push (e : Env) (v : Bytes) : Env :=
  { e with stack := v :: e.stack }

/-- `env.program.push(v)`: the last instruction pushed runs first. -/
def Env.progPush (e : Env) (v : Bytes) : Env :=
  { e with program := v :: e.program }

/- Instruction byte strings, from the `instruction!` declarations. -/

def WRITE : Bytes := [0x85, 0x57, 0x52, 0x49, 0x54, 0x45]

def WRITE_END : Bytes := [0x80, 0x85, 0x57, 0x52, 0x49, 0x54, 0x45]

def READ : Bytes := [0x84, 0x52, 0x45, 0x41, 0x44]

def READ_END : Bytes := [0x80, 0x84, 0x52, 0x45, 0x41, 0x44]

def ASSOC : Bytes := [0x85, 0x41, 0x53, 0x53, 0x4F, 0x43]

def ASSOCQ : Bytes := [0x86, 0x41, 0x53, 0x53, 0x4F, 0x43, 0x3F]

def RETR : Bytes := [0x84, 0x52, 0x45, 0x54, 0x52]

def CURSOR : Bytes := [0x86, 0x43, 0x55, 0x52, 0x53, 0x4F, 0x52]

def QCURSOR_FIRST : Bytes := [0x8D, 0x3F, 0x43, 0x55, 0x52, 0x53, 0x4F, 0x52, 0x2F, 0x46, 0x49, 0x52, 0x53, 0x54]

def CURSOR_FIRSTQ : Bytes := [0x8D, 0x43, 0x55, 0x52, 0x53, 0x4F, 0x52, 0x2F, 0x46, 0x49, 0x52, 0x53, 0x54, 0x3F]

def QCURSOR_LAST : Bytes := [0x8C, 0x3F, 0x43, 0x55, 0x52, 0x53, 0x4F, 0x52, 0x2F, 0x4C, 0x41, 0x53, 0x54]

def CURSOR_LASTQ : Bytes := [0x8C, 0x43, 0x55, 0x52, 0x53, 0x4F, 0x52, 0x2F, 0x4C, 0x41, 0x53, 0x54, 0x3F]

def QCURSOR_NEXT : Bytes := [0x8C, 0x3F, 0x43, 0x55, 0x52, 0x53, 0x4F, 0x52, 0x2F, 0x4E, 0x45, 0x58, 0x54]

def CURSOR_NEXTQ : Bytes := [0x8C, 0x43, 0x55, 0x52, 0x53, 0x4F, 0x52, 0x2F, 0x4E, 0x45, 0x58, 0x54, 0x3F]

def QCURSOR_PREV : Bytes := [0x8C, 0x3F, 0x43, 0x55, 0x52, 0x53, 0x4F, 0x52, 0x2F, 0x50, 0x52, 0x45, 0x56]

def CURSOR_PREVQ : Bytes := [0x8C, 0x43, 0x55, 0x52, 0x53, 0x4F, 0x52, 0x2F, 0x50, 0x52, 0x45, 0x56, 0x3F]

def QCURSOR_SEEK : Bytes := [0x8C, 0x3F, 0x43, 0x55, 0x52, 0x53, 0x4F, 0x52, 0x2F, 0x53, 0x45, 0x45, 0x4B]

def CURSOR_SEEKQ : Bytes := [0x8C, 0x43, 0x55, 0x52, 0x53, 0x4F, 0x52, 0x2F, 0x53, 0x45, 0x45, 0x4B, 0x3F]

def QCURSOR_CUR : Bytes := [0x8B, 0x3F, 0x43, 0x55, 0x52, 0x53, 0x4F, 0x52, 0x2F, 0x43, 0x55, 0x52]

def CURSOR_CURQ : Bytes := [0x8B, 0x43, 0x55, 0x52, 0x53, 0x4F, 0x52, 0x2F, 0x43, 0x55, 0x52, 0x3F]

def COMMIT : Bytes := [0x86, 0x43, 0x4F, 0x4D, 0x4D, 0x49, 0x54]

/-- Modelled from the spec: lexicographic byte order of the engine's ordered
key space. -/
def bytesLt : Bytes → Bytes → Bool
  | [], [] => false
  | [], _ :: _ => true
  | _ :: _, [] => false
  | a :: xs, b :: ys => if a < b then true else if b < a then false else bytesLt xs ys

/-- Modelled from the spec: the engine's single managed key space — a list of
key/value entries kept sorted by key. -/
structure Store where
  entries : List (Bytes × Bytes)
deriving DecidableEq, Repr

/-- Modelled from the spec: engine byte-slice get. -/
def Store.get (s : Store) (k : Bytes) : Option Bytes :=
  (s.entries.find? (fun e => decide (e.1 = k))).map (fun e => e.2)

/-- Insert a key/value entry keeping the entry list sorted by key. -/
def insertSorted (k v : Bytes) : List (Bytes × Bytes) → List (Bytes × Bytes)
  | [] => [(k, v)]
  | e :: rest => if bytesLt k e.1 then (k, v) :: e :: rest else e :: insertSorted k v rest

/-- Modelled from the spec: the engine error outcomes the handlers distinguish —
the no-overwrite conflict code (`KEYEXIST`), the not-found code, and other
engine failures. -/
inductive EngineError
  | keyExist
  | notFound
  | einval
  | other
deriving DecidableEq, Repr

/-- Modelled from the spec: engine byte-slice put with the no-overwrite flag —
the conflict on an existing key is surfaced as `keyExist` and leaves the store
unchanged. -/
def Store.put (s : Store) (k v : Bytes) : Except EngineError Store :=
  if (s.get k).isSome then .error .keyExist
  else .ok ⟨insertSorted k v s.entries⟩

/-- The transaction kind that spawned a cursor (`TxType`). -/
inductive TxType
  | Read
  | Write
deriving DecidableEq, Repr

/-- `t != TxType::Write` of the `WRITE_END` purge filter. -/
def isNotWrite : TxType → Bool
  | .Write => false
  | .Read => true

/-- `t != TxType::Read` of the `READ_END` purge filter. -/
def isNotRead : TxType → Bool
  | .Read => false
  | .Write => true

/-- An engine write transaction (`lmdb::WriteTransaction`): its mutable view of
the key space. -/
structure WriteTxn where
  store : Store
deriving DecidableEq, Repr

/-- An engine read (snapshot) transaction (`lmdb::ReadTransaction`). -/
structure ReadTxn where
  store : Store
deriving DecidableEq, Repr

/-- Modelled from the spec: an engine cursor — a stateful position into the
ordered key space (`none` before the first positioning operation). -/
structure Cursor where
  pos : Option Nat
deriving DecidableEq, Repr

/-- The `Handler` state: the committed database, the single write slot, the
per-process read-slot map, the cursor registry, and the counter feeding the
cursor-id generator. -/
structure Handler where
  db : Store
  db_write_txn : Option (EnvId × WriteTxn)
  db_read_txns : List (EnvId × ReadTxn)
  cursors : List ((EnvId × Bytes) × (TxType × Cursor))
  nextCursorId : Nat
deriving DecidableEq, Repr

/-- `db_read_txns.contains_key(&pid)`. -/
def readContains (m : List (EnvId × ReadTxn)) (pid : EnvId) : Bool :=
  (m.find? (fun e => decide (e.1 = pid))).isSome

/-- `db_read_txns.get(&pid)`. -/
def readLookup (m : List (EnvId × ReadTxn)) (pid : EnvId) : Option ReadTxn :=
  (m.find? (fun e => decide (e.1 = pid))).map (fun e => e.2)

/-- `db_read_txns.remove(&pid)`. -/
def readRemove (m : List (EnvId × ReadTxn)) (pid : EnvId) : List (EnvId × ReadTxn) :=
  m.filter (fun e => !decide (e.1 = pid))

/-- `db_read_txns.insert(pid, t)`. -/
def readInsert (m : List (EnvId × ReadTxn)) (pid : EnvId) (t : ReadTxn) : List (EnvId × ReadTxn) :=
  readRemove m pid ++ [(pid, t)]

/-- `cursors.get(&k)` on the cursor registry. -/
def lookupC (cs : List ((EnvId × Bytes) × (TxType × Cursor))) (k : EnvId × Bytes) :
    Option (TxType × Cursor) :=
  (cs.find? (fun e => decide (e.1 = k))).map (fun e => e.2)

/-- `cursors.remove(&k)` (the move-out step). -/
def removeC (cs : List ((EnvId × Bytes) × (TxType × Cursor))) (k : EnvId × Bytes) :
    List ((EnvId × Bytes) × (TxType × Cursor)) :=
  cs.filter (fun e => !decide (e.1 = k))

/-- `cursors.insert(k, v)` (the move-back step). -/
def insertC (cs : List ((EnvId × Bytes) × (TxType × Cursor))) (k : EnvId × Bytes)
    (v : TxType × Cursor) : List ((EnvId × Bytes) × (TxType × Cursor)) :=
  removeC cs k ++ [(k, v)]

/-- `validate_lockout!`: `true` means the write slot is held by a *different*
process, so the instruction must be rescheduled. -/
def validate_lockout (slot : Option (EnvId × WriteTxn)) (pid : EnvId) : Bool :=
  match slot with
  | some (p, _) => !decide (p = pid)
  | none => false

/-- `validate_read_lockout!`: `true` means the read-slot set is non-empty and
does not contain the process, so the instruction must be rescheduled. -/
def validate_read_lockout (m : List (EnvId × ReadTxn)) (pid : EnvId) : Bool :=
  decide (0 < m.length) && !readContains m pid

/-- `read_or_write_transaction!`: the write transaction's view if any write
transaction exists, else the process's read transaction's view, else
`NoTransaction`. -/
def read_or_write_transaction (h : Handler) (pid : EnvId) : Except Err Store :=
  match h.db_write_txn with
  | some (_, txn) => .ok txn.store
  | none =>
    match readLookup h.db_read_txns pid with
    | some txn => .ok txn.store
    | none => .error .NoTransaction

/-- `tx_type!`: the kind of transaction currently governing the process. -/
def tx_type (h : Handler) (pid : EnvId) : Except Err TxType :=
  match h.db_write_txn with
  | some _ => .ok .Write
  | none => if readContains h.db_read_txns pid then .ok .Read else .error .NoTransaction

/-- Modelled from the spec: the VM's boolean true (`STACK_TRUE` in `mod.rs`;
the source's own test observes it as `0x01`). -/
def STACK_TRUE : Bytes := [1]

/-- Modelled from the spec: the VM's boolean false (`STACK_FALSE`, `0x00`). -/
def STACK_FALSE : Bytes := [0]

/-- The zero-length empty-result sentinel (`STACK_EMPTY_CLOSURE`). -/
def STACK_EMPTY_CLOSURE : Bytes := []

/-- Modelled from the spec: the variable-length size prefix written by
`write_size_into_slice!` (`offset_by_size` gives its width). -/
def sizeBytes (n : Nat) : Bytes :=
  if n < 121 then [n]
  else if n < 256 then [121, n]
  else if n < 65536 then [122, n / 256, n % 256]
  else [123, n / 16777216 % 256, n / 65536 % 256, n / 256 % 256, n % 256]

/-- The fetch-result encoding built by `qcursor_op!`: size prefix of the key,
the key bytes, size prefix of the value, the value bytes. -/
def encodePair (key val : Bytes) : Bytes :=
  sizeBytes key.length ++ key ++ sizeBytes val.length ++ val

/-- Big-endian fixed-width byte encoding (`write_u64::<BigEndian>`). -/
def beBytes : Nat → Nat → Bytes
  | 0, _ => []
  | w + 1, n => beBytes w (n / 256) ++ [n % 256]

/-- Modelled from the spec: the cursor-id token bytes minted by `CURSOR` —
fixed-width big-endian process-prefix (constant here: one OS process) followed
by the monotonically increasing counter (`snowflake::ProcessUniqueId`). -/
def tokenBytes (id : Nat) : Bytes :=
  beBytes 8 0 ++ beBytes 8 id

/-- A handler call's outcome: the `PassResult` together with the handler state
and environment after the call (`&mut` mutations persist on error returns). -/
abbrev HResult := Except Err Unit × Handler × Env

/-- The `qcursor_op!` macro (fetch-form cursor operations), generic over the
engine positioning operation exactly as the macro is generic over `$op`. -/
def qcursor_op (h : Handler) (env : Env) (pid : EnvId)
    (op : Store → Cursor → Except EngineError (Bytes × Bytes) × Cursor) : HResult :=
  if validate_read_lockout h.db_read_txns pid then (.error .Reschedule, h, env)
  else if validate_lockout h.db_write_txn pid then (.error .Reschedule, h, env)
  else
    match env.stack with
    | [] => (.error .EmptyStack, h, env)
    | c :: rest =>
      let env1 : Env := { env with stack := rest }
      match read_or_write_transaction h pid with
      | .error e => (.error e, h, env1)
      | .ok st =>
        match lookupC h.cursors (pid, c) with
        | none => (.error .InvalidValue, h, env1)
        | some (_, cursor) =>
          let h1 : Handler := { h with cursors := removeC h.cursors (pid, c) }
          let r := op st cursor
          let env2 : Env :=
            match r.1 with
            | .ok (key, val) => env1.push (encodePair key val)
            | .error _ => env1.push STACK_EMPTY_CLOSURE
          match tx_type h1 pid with
          | .error e => (.error e, h1, env2)
          | .ok tt => (.ok (), { h1 with cursors := insertC h1.cursors (pid, c) (tt, r.2) }, env2)

/-- The `cursorq_op!` macro (test-form cursor operations). -/
def cursorq_op (h : Handler) (env : Env) (pid : EnvId)
    (op : Store → Cursor → Except EngineError (Bytes × Bytes) × Cursor) : HResult :=
  if validate_read_lockout h.db_read_txns pid then (.error .Reschedule, h, env)
  else if validate_lockout h.db_write_txn pid then (.error .Reschedule, h, env)
  else
    match env.stack with
    | [] => (.error .EmptyStack, h, env)
    | c :: rest =>
      let env1 : Env := { env with stack := rest }
      match read_or_write_transaction h pid with
      | .error e => (.error e, h, env1)
      | .ok st =>
        match lookupC h.cursors (pid, c) with
        | none => (.error .InvalidValue, h, env1)
        | some (_, cursor) =>
          let h1 : Handler := { h with cursors := removeC h.cursors (pid, c) }
          let r := op st cursor
          let env2 : Env :=
            match r.1 with
            | .ok _ => env1.push STACK_TRUE
            | .error _ => env1.push STACK_FALSE
          match tx_type h1 pid with
          | .error e => (.error e, h1, env2)
          | .ok tt => (.ok (), { h1 with cursors := insertC h1.cursors (pid, c) (tt, r.2) }, env2)

/-- `handle_write`.  `tryLockOk` is the outcome of the engine's non-blocking
writer-exclusivity try-acquire (`self.db.try_lock()`); `openOk` is whether the
engine opens the write transaction. -/
def handle_write (h : Handler) (env : Env) (instruction : Bytes) (pid : EnvId)
    (tryLockOk : Bool) (openOk : Bool) : HResult :=
  if instruction = WRITE then
    match env.stack with
    | [] => (.error .EmptyStack, h, env)
    | v :: rest =>
      let env1 : Env := { env with stack := rest }
      if validate_lockout h.db_write_txn pid then (.error .Reschedule, h, env1)
      else if !tryLockOk then (.error .Reschedule, h, env1)
      else if !openOk then (.error .Database, h, env1)
      else
        (.ok (), { h with db_write_txn := some (pid, ⟨h.db⟩) },
          (env1.progPush WRITE_END).progPush v)
  else if instruction = WRITE_END then
    if validate_lockout h.db_write_txn pid then (.error .Reschedule, h, env)
    else
      (.ok (), { h with
                 cursors := h.cursors.filter (fun t => isNotWrite t.2.1),
                 db_write_txn := none }, env)
  else (.error .UnknownInstruction, h, env)

/-- `handle_read`. -/
def handle_read (h : Handler) (env : Env) (instruction : Bytes) (pid : EnvId)
    (openOk : Bool) : HResult :=
  if instruction = READ then
    match env.stack with
    | [] => (.error .EmptyStack, h, env)
    | v :: rest =>
      let env1 : Env := { env with stack := rest }
      if validate_read_lockout h.db_read_txns pid then (.error .Reschedule, h, env1)
      else if !openOk then (.error .Database, h, env1)
      else
        (.ok (), { h with db_read_txns := readInsert h.db_read_txns pid ⟨h.db⟩ },
          (env1.progPush READ_END).progPush v)
  else if instruction = READ_END then
    if validate_read_lockout h.db_read_txns pid then (.error .Reschedule, h, env)
    else
      (.ok (), { h with
                 cursors := h.cursors.filter (fun t => isNotRead t.2.1),
                 db_read_txns := readRemove h.db_read_txns pid }, env)
  else (.error .UnknownInstruction, h, env)

/-- `handle_assoc`. -/
def handle_assoc (h : Handler) (env : Env) (instruction : Bytes) (pid : EnvId) : HResult :=
  if instruction = ASSOC then
    if validate_lockout h.db_write_txn pid then (.error .Reschedule, h, env)
    else
      match h.db_write_txn with
      | some (owner, txn) =>
        match env.stack with
        | [] => (.error .EmptyStack, h, env)
        | value :: rest =>
          match rest with
          | [] => (.error .EmptyStack, h, { env with stack := [] })
          | key :: rest2 =>
            let env2 : Env := { env with stack := rest2 }
            match txn.store.put key value with
            | .ok st => (.ok (), { h with db_write_txn := some (owner, ⟨st⟩) }, env2)
            | .error .keyExist => (.error .DuplicateKey, h, env2)
            | .error _ => (.error .Database, h, env2)
      | none => (.error .NoTransaction, h, env)
  else (.error .UnknownInstruction, h, env)

/-- `handle_commit`.  `commitOk` is whether the engine commit succeeds; the
slot is cleared (`mem::replace`) before the commit is attempted, as in the
source. -/
def handle_commit (h : Handler) (env : Env) (instruction : Bytes) (pid : EnvId)
    (commitOk : Bool) : HResult :=
  if instruction = COMMIT then
    if validate_lockout h.db_write_txn pid then (.error .Reschedule, h, env)
    else
      match h.db_write_txn with
      | some (_, txn) =>
        if commitOk then (.ok (), { h with db_write_txn := none, db := txn.store }, env)
        else (.error .Database, { h with db_write_txn := none }, env)
      | none => (.error .NoTransaction, h, env)
  else (.error .UnknownInstruction, h, env)

/-- `handle_retr`. -/
def handle_retr (h : Handler) (env : Env) (instruction : Bytes) (pid : EnvId) : HResult :=
  if instruction = RETR then
    if validate_lockout h.db_write_txn pid then (.error .Reschedule, h, env)
    else if validate_read_lockout h.db_read_txns pid then (.error .Reschedule, h, env)
    else
      match env.stack with
      | [] => (.error .EmptyStack, h, env)
      | key :: rest =>
        let env1 : Env := { env with stack := rest }
        match read_or_write_transaction h pid with
        | .error e => (.error e, h, env1)
        | .ok st =>
          match st.get key with
          | some val => (.ok (), h, env1.push val)
          | none => (.error .UnknownKey, h, env1)
  else (.error .UnknownInstruction, h, env)

/-- `handle_assocq`.  Note: unlike `handle_retr`, the source performs no
`validate_read_lockout!` here. -/
def handle_assocq (h : Handler) (env : Env) (instruction : Bytes) (pid : EnvId) : HResult :=
  if instruction = ASSOCQ then
    if validate_lockout h.db_write_txn pid then (.error .Reschedule, h, env)
    else
      match env.stack with
      | [] => (.error .EmptyStack, h, env)
      | key :: rest =>
        let env1 : Env := { env with stack := rest }
        match read_or_write_transaction h pid with
        | .error e => (.error e, h, env1)
        | .ok st =>
          if (st.get key).isSome then (.ok (), h, env1.push STACK_TRUE)
          else (.ok (), h, env1.push STACK_FALSE)
  else (.error .UnknownInstruction, h, env)

/-- `handle_cursor`.  `cursorOk` is whether the engine opens the cursor
(`txn.cursor(&self.db.db)`). -/
def handle_cursor (h : Handler) (env : Env) (instruction : Bytes) (pid : EnvId)
    (cursorOk : Bool) : HResult :=
  if instruction = CURSOR then
    if validate_read_lockout h.db_read_txns pid then (.error .Reschedule, h, env)
    else if validate_lockout h.db_write_txn pid then (.error .Reschedule, h, env)
    else
      match read_or_write_transaction h pid with
      | .error e => (.error e, h, env)
      | .ok _ =>
        if cursorOk then
          let bytes := tokenBytes h.nextCursorId
          match tx_type h pid with
          | .error e => (.error e, h, env)
          | .ok tt =>
            (.ok (), { h with
                       cursors := insertC h.cursors (pid, bytes) (tt, ⟨none⟩),
                       nextCursorId := h.nextCursorId + 1 }, env.push bytes)
        else (.error .Database, h, env)
  else (.error .UnknownInstruction, h, env)

/-- Modelled from the spec: engine cursor `first`. -/
def cursorFirst (st : Store) (c : Cursor) : Except EngineError (Bytes × Bytes) × Cursor :=
  match st.entries[0]? with
  | some e => (.ok e, ⟨some 0⟩)
  | none => (.error .notFound, c)

/-- Modelled from the spec: engine cursor `last`. -/
def cursorLast (st : Store) (c : Cursor) : Except EngineError (Bytes × Bytes) × Cursor :=
  match st.entries[st.entries.length - 1]? with
  | some e => (.ok e, ⟨some (st.entries.length - 1)⟩)
  | none => (.error .notFound, c)

/-- Modelled from the spec: engine cursor `next` (acts as `first` on an
unpositioned cursor; stays put and reports not-found at the end). -/
def cursorNext (st : Store) (c : Cursor) : Except EngineError (Bytes × Bytes) × Cursor :=
  match c.pos with
  | none => cursorFirst st c
  | some i =>
    match st.entries[i + 1]? with
    | some e => (.ok e, ⟨some (i + 1)⟩)
    | none => (.error .notFound, c)

/-- Modelled from the spec: engine cursor `prev`. -/
def cursorPrev (st : Store) (c : Cursor) : Except EngineError (Bytes × Bytes) × Cursor :=
  match c.pos with
  | none => cursorLast st c
  | some i =>
    if i = 0 then (.error .notFound, c)
    else
      match st.entries[i - 1]? with
      | some e => (.ok e, ⟨some (i - 1)⟩)
      | none => (.error .notFound, c)

/-- Modelled from the spec: engine cursor `seek_range_k` — position at the
first entry whose key is not below the sought key. -/
def cursorSeek (key : Bytes) (st : Store) (c : Cursor) :
    Except EngineError (Bytes × Bytes) × Cursor :=
  match st.entries.findIdx? (fun e => !bytesLt e.1 key) with
  | some j =>
    match st.entries[j]? with
    | some e => (.ok e, ⟨some j⟩)
    | none => (.error .notFound, c)
  | none => (.error .notFound, c)

/-- Modelled from the spec: engine cursor `get_current` — on an unpositioned
cursor lmdb reports `EINVAL`, an engine error distinct from not-found. -/
def cursorCurrent (st : Store) (c : Cursor) : Except EngineError (Bytes × Bytes) × Cursor :=
  match c.pos with
  | none => (.error .einval, c)
  | some i =>
    match st.entries[i]? with
    | some e => (.ok e, c)
    | none => (.error .einval, c)

/-- `handle_cursor_first`. -/
def handle_cursor_first (h : Handler) (env : Env) (instruction : Bytes) (pid : EnvId) : HResult :=
  if instruction = QCURSOR_FIRST then qcursor_op h env pid cursorFirst
  else if instruction = CURSOR_FIRSTQ then cursorq_op h env pid cursorFirst
  else (.error .UnknownInstruction, h, env)

/-- `handle_cursor_next`. -/
def handle_cursor_next (h : Handler) (env : Env) (instruction : Bytes) (pid : EnvId) : HResult :=
  if instruction = QCURSOR_NEXT then qcursor_op h env pid cursorNext
  else if instruction = CURSOR_NEXTQ then cursorq_op h env pid cursorNext
  else (.error .UnknownInstruction, h, env)

/-- `handle_cursor_prev`. -/
def handle_cursor_prev (h : Handler) (env : Env) (instruction : Bytes) (pid : EnvId) : HResult :=
  if instruction = QCURSOR_PREV then qcursor_op h env pid cursorPrev
  else if instruction = CURSOR_PREVQ then cursorq_op h env pid cursorPrev
  else (.error .UnknownInstruction, h, env)

/-- `handle_cursor_last`. -/
def handle_cursor_last (h : Handler) (env : Env) (instruction : Bytes) (pid : EnvId) : HResult :=
  if instruction = QCURSOR_LAST then qcursor_op h env pid cursorLast
  else if instruction = CURSOR_LASTQ then cursorq_op h env pid cursorLast
  else (.error .UnknownInstruction, h, env)

/-- `handle_cursor_seek`: both forms pop the sought key *before* the shared
macro body runs. -/
def handle_cursor_seek (h : Handler) (env : Env) (instruction : Bytes) (pid : EnvId) : HResult :=
  if instruction = QCURSOR_SEEK then
    match env.stack with
    | [] => (.error .EmptyStack, h, env)
    | key :: rest => qcursor_op h { env with stack := rest } pid (cursorSeek key)
  else if instruction = CURSOR_SEEKQ then
    match env.stack with
    | [] => (.error .EmptyStack, h, env)
    | key :: rest => cursorq_op h { env with stack := rest } pid (cursorSeek key)
  else (.error .UnknownInstruction, h, env)

/-- `handle_cursor_cur`. -/
def handle_cursor_cur (h : Handler) (env : Env) (instruction : Bytes) (pid : EnvId) : HResult :=
  if instruction = QCURSOR_CUR then qcursor_op h env pid cursorCurrent
  else if instruction = CURSOR_CURQ then cursorq_op h env pid cursorCurrent
  else (.error .UnknownInstruction, h, env)

/-- The process-termination hook (`fn done`): drops the process's read
transaction and, if the process owned it, the write transaction.  The cursor
registry is not touched by the source. -/
def done (h : Handler) (pid : EnvId) : Handler :=
  let is_in_read := readContains h.db_read_txns pid
  let is_in_write :=
    match h.db_write_txn with
    | some (p, _) => decide (p = pid)
    | none => false
  let h1 := if is_in_read then { h with db_read_txns := readRemove h.db_read_txns pid } else h
  if is_in_write then { h1 with db_write_txn := none } else h1

/- Concrete states used by the concrete evaluations below. -/

/-- An idle handler over an empty database. -/
def idleHandler : Handler :=
  { db := ⟨[]⟩, db_write_txn := none, db_read_txns := [], cursors := [], nextCursorId := 0 }

/-- A handler in which process 2 holds the only read slot. -/
def foreignReadHandler : Handler :=
  { idleHandler with db_read_txns := [(2, ⟨⟨[]⟩⟩)] }

/-- A handler in which process 1 holds a read slot and one Read-tagged cursor. -/
def readCursorHandler : Handler :=
  { idleHandler with
    db_read_txns := [(1, ⟨⟨[]⟩⟩)],
    cursors := [((1, [0]), (.Read, ⟨none⟩))],
    nextCursorId := 1 }

/-- A handler with an empty write slot but one leftover Write-tagged cursor. -/
def strayWriteCursorHandler : Handler :=
  { idleHandler with
    cursors := [((1, [0]), (.Write, ⟨none⟩))],
    nextCursorId := 1 }

/-- A handler in which process 1 holds the write slot and one Write-tagged
cursor registered under the token `[9]`. -/
def writeCursorHandler : Handler :=
  { idleHandler with
    db_write_txn := some (1, ⟨⟨[]⟩⟩),
    cursors := [((1, [9]), (.Write, ⟨none⟩))],
    nextCursorId := 1 }

/-- C1: the claim says a `Reschedule` return leaves the caller's stack
unmutated; the code pops the closure *before* the try-acquire (`WRITE`) and
before the epoch check (`READ`), so on the transient signal the closure is
already gone from the stack. -/
theorem write_read_reschedule_pops_stack :
    handle_write idleHandler ⟨[[7]], []⟩ WRITE 1 false true
      = (.error .Reschedule, idleHandler, ⟨[], []⟩) ∧
    handle_read foreignReadHandler ⟨[[7]], []⟩ READ 1 true
      = (.error .Reschedule, foreignReadHandler, ⟨[], []⟩) := ⟨rfl, rfl⟩

/-- C6: `ASSOC?` issued by process 1 while process 2 holds the only read slot
returns the hard `NoTransaction` error; the parallel `RETR` handler returns
the transient `Reschedule` in the identical state, exposing the missing
`validate_read_lockout!` in `handle_assocq`. -/
theorem assocq_no_tx_hard_error :
    handle_assocq foreignReadHandler ⟨[[9]], []⟩ ASSOCQ 1
      = (.error .NoTransaction, foreignReadHandler, ⟨[], []⟩) ∧
    handle_retr foreignReadHandler ⟨[[9]], []⟩ RETR 1
      = (.error .Reschedule, foreignReadHandler, ⟨[[9]], []⟩) := ⟨rfl, rfl⟩

/-- C3 counterexample: after the termination hook runs for process 1, its read
slot is gone but its cursor registry entry is still present — the hook never
touches `cursors`. -/
theorem done_leaves_cursor_registry :
    readContains (done readCursorHandler 1).db_read_txns 1 = false ∧
    lookupC (done readCursorHandler 1).cursors (1, [0]) = some (.Read, ⟨none⟩) := ⟨rfl, rfl⟩

/-- C4 counterexample: `WRITE_END` with the write slot already empty is not a
no-op — it still purges the Write-tagged cursor entry. -/
theorem write_end_empty_slot_purges :
    handle_write strayWriteCursorHandler ⟨[], []⟩ WRITE_END 1 true true
      = (.ok (), { strayWriteCursorHandler with cursors := [] }, ⟨[], []⟩) := rfl

/-- C2 counterexample: an engine error other than not-found (`other`, and the
concrete `EINVAL` from `CURSOR/CUR` on a freshly opened cursor) is converted
into the empty sentinel with a success result — not wrapped into a `Database`
error as the claim states. -/
theorem qcursor_swallows_engine_error :
    (qcursor_op writeCursorHandler ⟨[[9]], []⟩ 1 (fun _ c => (.error .other, c))).1 = .ok () ∧
    (qcursor_op writeCursorHandler ⟨[[9]], []⟩ 1 (fun _ c => (.error .other, c))).2.2.stack
      = [STACK_EMPTY_CLOSURE] ∧
    (handle_cursor_cur writeCursorHandler ⟨[[9]], []⟩ QCURSOR_CUR 1).1 = .ok () ∧
    (handle_cursor_cur writeCursorHandler ⟨[[9]], []⟩ QCURSOR_CUR 1).2.2.stack
      = [STACK_EMPTY_CLOSURE] := ⟨rfl, rfl, rfl, rfl⟩

/-- C10: with no write transaction, `ASSOC` returns `NoTransaction` and the
environment — stack and program — is completely untouched: the value and key
operands are popped only inside the branch in which a write transaction
exists. -/
theorem assoc_no_transaction_frame (h : Handler) (env : Env) (pid : EnvId)
    (hw : h.db_write_txn = none) :
    handle_assoc h env ASSOC pid = (.error .NoTransaction, h, env) := by
  unfold handle_assoc
  simp [hw, validate_lockout]

/-- C10 witness: the theorem applied at a concrete state with two operands on
the stack. -/
theorem assoc_no_transaction_frame_witness :
    handle_assoc idleHandler ⟨[[3], [4]], []⟩ ASSOC 1
      = (.error .NoTransaction, idleHandler, ⟨[[3], [4]], []⟩) :=
  assoc_no_transaction_frame idleHandler ⟨[[3], [4]], []⟩ 1 rfl

/-- A process removed from the read-slot map is no longer in it. -/
theorem readContains_readRemove (m : List (EnvId × ReadTxn)) (pid : EnvId) :
    readContains (readRemove m pid) pid = false := by
  have hfind : (List.filter (fun e => !decide (e.1 = pid)) m).find?
      (fun e => decide (e.1 = pid)) = none := by
    rw [List.find?_eq_none]
    intro a ha
    have hmem := List.of_mem_filter ha
    simp only [Bool.not_eq_true', decide_eq_false_iff_not] at hmem
    simp [hmem]
  simp [readContains, readRemove, hfind]

/-- C3 amended: the termination hook releases the process's transaction state —
its read slot is gone and it no longer owns the write slot — but the cursor
registry is left exactly as it was (entries keyed by the process remain until
a transaction-end purge). -/
theorem done_releases_transactions (h : Handler) (pid : EnvId) :
    readContains (done h pid).db_read_txns pid = false ∧
    decide ((done h pid).db_write_txn.map Prod.fst = some pid) = false ∧
    (done h pid).cursors = h.cursors := by
  unfold done
  cases hwt : h.db_write_txn with
  | none =>
    by_cases hr : readContains h.db_read_txns pid <;>
      simp [hwt, hr, readContains_readRemove]
  | some pt =>
    obtain ⟨p, t⟩ := pt
    by_cases hp : p = pid <;>
      by_cases hr : readContains h.db_read_txns pid <;>
        simp [hwt, hp, hr, readContains_readRemove]

/-- C4 amended: `WRITE_END` returns the transient signal iff the write slot is
held by a different process, changing nothing; otherwise — including when the
slot is already empty — it purges all Write-tagged cursor entries and clears
the slot without committing (the committed database is untouched). -/
theorem write_end_behavior (h : Handler) (env : Env) (pid : EnvId) (a b : Bool) :
    (validate_lockout h.db_write_txn pid = true →
      handle_write h env WRITE_END pid a b = (.error .Reschedule, h, env)) ∧
    (validate_lockout h.db_write_txn pid = false →
      handle_write h env WRITE_END pid a b
        = (.ok (), { h with
                     cursors := h.cursors.filter (fun t => isNotWrite t.2.1),
                     db_write_txn := none }, env)) := by
  constructor <;> intro hv <;> simp [handle_write, WRITE, WRITE_END, hv]

/-- C4 witness: the amended theorem applied at a slot held by process 2 with
caller 1 (transient), and at an empty slot with a stray Write cursor (purge). -/
theorem write_end_behavior_witness :
    handle_write { idleHandler with db_write_txn := some (2, ⟨⟨[]⟩⟩) } ⟨[], []⟩ WRITE_END 1 true true
      = (.error .Reschedule, { idleHandler with db_write_txn := some (2, ⟨⟨[]⟩⟩) }, ⟨[], []⟩) ∧
    handle_write strayWriteCursorHandler ⟨[], []⟩ WRITE_END 1 true true
      = (.ok (), { strayWriteCursorHandler with
                   cursors := strayWriteCursorHandler.cursors.filter (fun t => isNotWrite t.2.1),
                   db_write_txn := none }, ⟨[], []⟩) :=
  ⟨(write_end_behavior _ ⟨[], []⟩ 1 true true).1 rfl,
   (write_end_behavior _ ⟨[], []⟩ 1 true true).2 rfl⟩

/-- C7: `ASSOC` on a key already present in the transaction's store returns
`DuplicateKey`; the handler state — and with it the store — is unchanged, and
only the two operands have been consumed. -/
theorem assoc_duplicate_key (h : Handler) (env : Env) (pid : EnvId) (st : Store)
    (key value v0 : Bytes) (rest : List Bytes)
    (hw : h.db_write_txn = some (pid, ⟨st⟩))
    (hk : st.get key = some v0)
    (hs : env.stack = value :: key :: rest) :
    handle_assoc h env ASSOC pid = (.error .DuplicateKey, h, { env with stack := rest }) := by
  unfold handle_assoc
  simp [hw, hs, validate_lockout, Store.put, hk]

/-- The store of a single-entry write transaction used by the C7 witness. -/
def dupStore : Store := ⟨[([1], [2])]⟩

/-- A handler whose write transaction (owned by process 1) already holds the
key `[1]`. -/
def dupWriteHandler : Handler := { idleHandler with db_write_txn := some (1, ⟨dupStore⟩) }

/-- C7 witness: associating the existing key `[1]` fails with `DuplicateKey`
and leaves the handler unchanged. -/
theorem assoc_duplicate_key_witness :
    handle_assoc dupWriteHandler ⟨[[9], [1]], []⟩ ASSOC 1
      = (.error .DuplicateKey, dupWriteHandler, ⟨[], []⟩) :=
  assoc_duplicate_key dupWriteHandler ⟨[[9], [1]], []⟩ 1 dupStore [1] [9] [2] [] rfl rfl rfl

/-- Looking up a freshly inserted key in the sorted entry list finds exactly
the inserted entry, provided the key was absent. -/
theorem find?_insertSorted (l : List (Bytes × Bytes)) (k v : Bytes)
    (hnone : l.find? (fun e => decide (e.1 = k)) = none) :
    (insertSorted k v l).find? (fun e => decide (e.1 = k)) = some (k, v) := by
  induction l with
  | nil => simp [insertSorted]
  | cons e rest ih =>
    by_cases he : e.1 = k
    · rw [List.find?_cons_of_pos _ (by simp [he])] at hnone
      exact absurd hnone (by simp)
    · rw [List.find?_cons_of_neg _ (by simp [he])] at hnone
      unfold insertSorted
      by_cases hlt : bytesLt k e.1
      · simp [hlt]
      · simp only [hlt, Bool.false_eq_true, if_false]
        rw [List.find?_cons_of_neg _ (by simp [he])]
        exact ih hnone

/-- Round-trip through the sorted store: a put of an absent key is retrieved
exactly. -/
theorem get_insertSorted (st : Store) (k v : Bytes) (hget : st.get k = none) :
    Store.get ⟨insertSorted k v st.entries⟩ k = some v := by
  have hfind : st.entries.find? (fun e => decide (e.1 = k)) = none := by
    unfold Store.get at hget
    exact Option.map_eq_none'.mp hget
  unfold Store.get
  rw [find?_insertSorted st.entries k v hfind]
  rfl

/-- C8: inside a usable write transaction, `RETR` of an absent key returns
`UnknownKey` (operand consumed, nothing else changed), and after `ASSOC` of
(key, value) a `RETR` of that key pushes exactly the stored value bytes. -/
theorem retr_roundtrip (h : Handler) (env env' : Env) (pid : EnvId) (st : Store)
    (key value : Bytes) (rest rest' : List Bytes)
    (hw : h.db_write_txn = some (pid, ⟨st⟩))
    (hr : validate_read_lockout h.db_read_txns pid = false)
    (hget : st.get key = none)
    (hs : env.stack = value :: key :: rest)
    (hs' : env'.stack = key :: rest') :
    handle_retr h { env with stack := key :: rest } RETR pid
      = (.error .UnknownKey, h, { env with stack := rest }) ∧
    handle_assoc h env ASSOC pid
      = (.ok (), { h with db_write_txn := some (pid, ⟨⟨insertSorted key value st.entries⟩⟩) },
         { env with stack := rest }) ∧
    handle_retr { h with db_write_txn := some (pid, ⟨⟨insertSorted key value st.entries⟩⟩) }
        env' RETR pid
      = (.ok (), { h with db_write_txn := some (pid, ⟨⟨insertSorted key value st.entries⟩⟩) },
         { env' with stack := value :: rest' }) := by
  refine ⟨?_, ?_, ?_⟩
  · unfold handle_retr
    simp [hw, hr, validate_lockout, read_or_write_transaction, hget]
  · unfold handle_assoc
    simp [hw, hs, validate_lockout, Store.put, hget]
  · unfold handle_retr
    simp [hw, hr, hs', validate_lockout, read_or_write_transaction,
          get_insertSorted st key value hget, Env.push]

/-- C8 witness: the round trip at a concrete empty store with key `[1]` and
value `[2]`. -/
theorem retr_roundtrip_witness :
    handle_retr { idleHandler with db_write_txn := some (1, ⟨⟨[]⟩⟩) } ⟨[[1]], []⟩ RETR 1
      = (.error .UnknownKey, { idleHandler with db_write_txn := some (1, ⟨⟨[]⟩⟩) }, ⟨[], []⟩) ∧
    handle_assoc { idleHandler with db_write_txn := some (1, ⟨⟨[]⟩⟩) } ⟨[[2], [1]], []⟩ ASSOC 1
      = (.ok (), { idleHandler with db_write_txn := some (1, ⟨⟨insertSorted [1] [2] []⟩⟩) },
         ⟨[], []⟩) ∧
    handle_retr { idleHandler with db_write_txn := some (1, ⟨⟨insertSorted [1] [2] []⟩⟩) }
        ⟨[[1]], []⟩ RETR 1
      = (.ok (), { idleHandler with db_write_txn := some (1, ⟨⟨insertSorted [1] [2] []⟩⟩) },
         ⟨[[2]], []⟩) :=
  retr_roundtrip { idleHandler with db_write_txn := some (1, ⟨⟨[]⟩⟩) }
    ⟨[[2], [1]], []⟩ ⟨[[1]], []⟩ 1 ⟨[]⟩ [1] [2] [] [] rfl rfl rfl rfl rfl

/-- `beBytes w` always yields exactly `w` bytes. -/
theorem beBytes_length (w : Nat) : ∀ n : Nat, (beBytes w n).length = w := by
  induction w with
  | zero => intro n; rfl
  | succ w ih => intro n; simp [beBytes, ih]

/-- `beBytes w` is injective below `256 ^ w`. -/
theorem beBytes_inj (w : Nat) : ∀ a b : Nat, a < 256 ^ w → b < 256 ^ w →
    beBytes w a = beBytes w b → a = b := by
  induction w with
  | zero =>
    intro a b ha hb _
    simp only [pow_zero, Nat.lt_one_iff] at ha hb
    omega
  | succ w ih =>
    intro a b ha hb heq
    simp only [beBytes] at heq
    have hlen : (beBytes w (a / 256)).length = (beBytes w (b / 256)).length := by
      simp [beBytes_length]
    obtain ⟨h1, h2⟩ := List.append_inj heq hlen
    have hmod : a % 256 = b % 256 := by simpa using h2
    rw [pow_succ] at ha hb
    have hdiva : a / 256 < 256 ^ w := Nat.div_lt_of_lt_mul (by omega)
    have hdivb : b / 256 < 256 ^ w := Nat.div_lt_of_lt_mul (by omega)
    have hdiv : a / 256 = b / 256 := ih _ _ hdiva hdivb h1
    omega

/-- Distinct counter values below `2 ^ 64` mint distinct cursor tokens. -/
theorem tokenBytes_inj (a b : Nat) (ha : a < 2 ^ 64) (hb : b < 2 ^ 64) (hne : a ≠ b) :
    tokenBytes a ≠ tokenBytes b := by
  intro heq
  unfold tokenBytes at heq
  obtain ⟨-, h2⟩ := List.append_inj heq rfl
  have h256 : (256 : Nat) ^ 8 = 2 ^ 64 := by norm_num
  exact hne (beBytes_inj 8 a b (by rw [h256]; exact ha) (by rw [h256]; exact hb) h2)

/-- When a governing transaction exists for the process, `tx_type!` succeeds. -/
theorem tx_type_isOk (h : Handler) (pid : EnvId) (st : Store)
    (hrw : read_or_write_transaction h pid = .ok st) : ∃ tt, tx_type h pid = .ok tt := by
  unfold read_or_write_transaction at hrw
  unfold tx_type
  cases hwt : h.db_write_txn with
  | some pt => exact ⟨.Write, rfl⟩
  | none =>
    rw [hwt] at hrw
    cases hl : readLookup h.db_read_txns pid with
    | none => rw [hl] at hrw; exact absurd hrw (by simp)
    | some t =>
      have hc : readContains h.db_read_txns pid = true := by
        unfold readContains
        unfold readLookup at hl
        cases hf : List.find? (fun e => decide (e.1 = pid)) h.db_read_txns with
        | none => rw [hf] at hl; simp at hl
        | some e => simp
      simp [hc]

/-- `tx_type!` only inspects the transaction slots, not the cursor registry. -/
theorem tx_type_set_cursors (h : Handler) (cs : List ((EnvId × Bytes) × (TxType × Cursor)))
    (pid : EnvId) : tx_type { h with cursors := cs } pid = tx_type h pid := rfl

/-- C9: popping a token with no registry entry for the calling process makes
both cursor-op forms fail with `InvalidValue` (only the token is consumed);
`CURSOR` mints its token from the strictly increasing counter and bumps it,
and the fixed-width big-endian encoding is injective, so a token is never
reused for a later cursor. -/
theorem cursor_token_discipline (h : Handler) (env : Env) (pid : EnvId)
    (op : Store → Cursor → Except EngineError (Bytes × Bytes) × Cursor)
    (tok : Bytes) (rest : List Bytes) (st : Store) (a b : Nat)
    (h1 : validate_read_lockout h.db_read_txns pid = false)
    (h2 : validate_lockout h.db_write_txn pid = false)
    (h3 : env.stack = tok :: rest)
    (h4 : read_or_write_transaction h pid = .ok st)
    (h5 : lookupC h.cursors (pid, tok) = none)
    (ha : a < 2 ^ 64) (hb : b < 2 ^ 64) (hne : a ≠ b) :
    qcursor_op h env pid op = (.error .InvalidValue, h, { env with stack := rest }) ∧
    cursorq_op h env pid op = (.error .InvalidValue, h, { env with stack := rest }) ∧
    tokenBytes a ≠ tokenBytes b ∧
    (∃ tt, tx_type h pid = .ok tt ∧
      handle_cursor h env CURSOR pid true
        = (.ok (), { h with
                     cursors := insertC h.cursors (pid, tokenBytes h.nextCursorId) (tt, ⟨none⟩),
                     nextCursorId := h.nextCursorId + 1 },
           env.push (tokenBytes h.nextCursorId))) := by
  refine ⟨?_, ?_, tokenBytes_inj a b ha hb hne, ?_⟩
  · unfold qcursor_op
    simp [h1, h2, h3, h4, h5]
  · unfold cursorq_op
    simp [h1, h2, h3, h4, h5]
  · obtain ⟨tt, htt⟩ := tx_type_isOk h pid st h4
    refine ⟨tt, htt, ?_⟩
    unfold handle_cursor
    simp [h1, h2, h4, htt]

/-- C9 witness: the never-registered token `[5]` is rejected with
`InvalidValue` by process 1, which holds the write transaction; minting at
counter 1 registers token `tokenBytes 1` and bumps the counter, and counters
0 and 1 yield distinct tokens. -/
theorem cursor_token_discipline_witness :
    qcursor_op writeCursorHandler ⟨[[5]], []⟩ 1 cursorFirst
      = (.error .InvalidValue, writeCursorHandler, ⟨[], []⟩) ∧
    tokenBytes 0 ≠ tokenBytes 1 ∧
    handle_cursor writeCursorHandler ⟨[[5]], []⟩ CURSOR 1 true
      = (.ok (), { writeCursorHandler with
                   cursors := insertC writeCursorHandler.cursors (1, tokenBytes 1) (.Write, ⟨none⟩),
                   nextCursorId := 2 },
         Env.push ⟨[[5]], []⟩ (tokenBytes 1)) := by
  have hx := cursor_token_discipline writeCursorHandler ⟨[[5]], []⟩ 1 cursorFirst
    [5] [] ⟨[]⟩ 0 1 rfl rfl rfl rfl rfl (by norm_num) (by norm_num) (by norm_num)
  refine ⟨hx.1, hx.2.2.1, ?_⟩
  obtain ⟨tt, htt, hc⟩ := hx.2.2.2
  have h0 : tx_type writeCursorHandler 1 = Except.ok TxType.Write := rfl
  rw [h0] at htt
  injection htt with hw
  rw [← hw] at hc
  exact hc

/-- `read_or_write_transaction!` fails only with `NoTransaction`. -/
theorem read_or_write_transaction_error (h : Handler) (pid : EnvId) (e : Err)
    (he : read_or_write_transaction h pid = .error e) : e = Err.NoTransaction := by
  unfold read_or_write_transaction at he
  cases hwt : h.db_write_txn with
  | some pt =>
    obtain ⟨p, t⟩ := pt
    rw [hwt] at he
    simp at he
  | none =>
    rw [hwt] at he
    cases hl : readLookup h.db_read_txns pid with
    | some t => rw [hl] at he; simp at he
    | none =>
      rw [hl] at he
      injection he with he'
      exact he'.symm

/-- `tx_type!` fails only with `NoTransaction`. -/
theorem tx_type_error (h : Handler) (pid : EnvId) (e : Err)
    (he : tx_type h pid = .error e) : e = Err.NoTransaction := by
  unfold tx_type at he
  cases hwt : h.db_write_txn with
  | some pt =>
    rw [hwt] at he
    simp at he
  | none =>
    rw [hwt] at he
    by_cases hc : readContains h.db_read_txns pid
    · simp [hc] at he
    · simp [hc] at he
      exact he.symm

/-- C2 amended: the fetch- and test-form cursor operations can never produce a
`Database` error; *every* engine error — not-found or any other — is converted
into the empty sentinel (fetch form) or the false flag (test form) with a
success result. -/
theorem cursor_ops_swallow_engine_errors (h : Handler) (env : Env) (pid : EnvId)
    (op : Store → Cursor → Except EngineError (Bytes × Bytes) × Cursor)
    (tok : Bytes) (rest : List Bytes) (st : Store) (tc : TxType) (cur : Cursor)
    (e : EngineError) (cur1 : Cursor) :
    (qcursor_op h env pid op).1 ≠ .error .Database ∧
    (cursorq_op h env pid op).1 ≠ .error .Database ∧
    (validate_read_lockout h.db_read_txns pid = false →
     validate_lockout h.db_write_txn pid = false →
     env.stack = tok :: rest →
     read_or_write_transaction h pid = .ok st →
     lookupC h.cursors (pid, tok) = some (tc, cur) →
     op st cur = (.error e, cur1) →
     (qcursor_op h env pid op).1 = .ok () ∧
     (qcursor_op h env pid op).2.2.stack = STACK_EMPTY_CLOSURE :: rest ∧
     (cursorq_op h env pid op).1 = .ok () ∧
     (cursorq_op h env pid op).2.2.stack = STACK_FALSE :: rest) := by
  refine ⟨?_, ?_, ?_⟩
  · unfold qcursor_op
    repeat' split <;> try simp_all
    all_goals
      rename_i e' he'
      intro hd
      rw [hd] at he'
      first
      | exact absurd (read_or_write_transaction_error _ _ _ he') (by decide)
      | exact absurd (tx_type_error _ _ _ he') (by decide)
  · unfold cursorq_op
    repeat' split <;> try simp_all
    all_goals
      rename_i e' he'
      intro hd
      rw [hd] at he'
      first
      | exact absurd (read_or_write_transaction_error _ _ _ he') (by decide)
      | exact absurd (tx_type_error _ _ _ he') (by decide)
  · intro h1 h2 h3 h4 h5 h6
    obtain ⟨tt, htt⟩ := tx_type_isOk h pid st h4
    unfold qcursor_op cursorq_op
    simp [h1, h2, h3, h4, h5, h6, tx_type_set_cursors, htt, Env.push]

/-- C2 amended witness: at the concrete state, the fetch form turns the
engine's `other` error into the sentinel and the test form into false. -/
theorem cursor_ops_swallow_engine_errors_witness :
    (qcursor_op writeCursorHandler ⟨[[9]], []⟩ 1 (fun _ c => (.error .other, c))).1
      ≠ .error .Database ∧
    (qcursor_op writeCursorHandler ⟨[[9]], []⟩ 1 (fun _ c => (.error .other, c))).2.2.stack
      = STACK_EMPTY_CLOSURE :: [] ∧
    (cursorq_op writeCursorHandler ⟨[[9]], []⟩ 1 (fun _ c => (.error .other, c))).2.2.stack
      = STACK_FALSE :: [] := by
  have hx := cursor_ops_swallow_engine_errors writeCursorHandler ⟨[[9]], []⟩ 1
    (fun _ c => (.error .other, c)) [9] [] ⟨[]⟩ .Write ⟨none⟩ .other ⟨none⟩
  have hy := hx.2.2 rfl rfl rfl rfl rfl rfl
  exact ⟨hx.1, hy.2.1, hy.2.2.2⟩

/-- C5: for any engine positioning operation, the fetch form and the test form
agree on the result code, the entire handler state (in particular every cursor
position in the registry), and the pending program; their stacks agree below
the top; and on success the fetch form has pushed the encoded pair exactly
when the test form has pushed true, and the empty sentinel exactly when the
test form has pushed false. -/
theorem cursor_forms_equiv (h : Handler) (env : Env) (pid : EnvId)
    (op : Store → Cursor → Except EngineError (Bytes × Bytes) × Cursor) :
    (qcursor_op h env pid op).1 = (cursorq_op h env pid op).1 ∧
    (qcursor_op h env pid op).2.1 = (cursorq_op h env pid op).2.1 ∧
    (qcursor_op h env pid op).2.2.program = (cursorq_op h env pid op).2.2.program ∧
    (qcursor_op h env pid op).2.2.stack.tail = (cursorq_op h env pid op).2.2.stack.tail ∧
    ((qcursor_op h env pid op).1 = .ok () →
      ∃ x y r0, (qcursor_op h env pid op).2.2.stack = x :: r0 ∧
        (cursorq_op h env pid op).2.2.stack = y :: r0 ∧
        ((∃ k v, x = encodePair k v ∧ y = STACK_TRUE) ∨
         (x = STACK_EMPTY_CLOSURE ∧ y = STACK_FALSE))) := by
  unfold qcursor_op cursorq_op
  cases hrl : validate_read_lockout h.db_read_txns pid with
  | true => simp [hrl]
  | false =>
  cases hwl : validate_lockout h.db_write_txn pid with
  | true => simp [hrl, hwl]
  | false =>
  cases hst : env.stack with
  | nil => simp [hrl, hwl, hst]
  | cons c rest =>
  cases hrw : read_or_write_transaction h pid with
  | error e => simp [hrl, hwl, hst, hrw]
  | ok st =>
  cases hlk : lookupC h.cursors (pid, c) with
  | none => simp [hrl, hwl, hst, hrw, hlk]
  | some tcur =>
  obtain ⟨tc0, cur⟩ := tcur
  cases hop : op st cur with
  | mk item cur1 =>
  cases htt : tx_type { h with cursors := removeC h.cursors (pid, c) } pid with
  | error e2 =>
    cases item <;> simp [hrl, hwl, hst, hrw, hlk, hop, htt, Env.push]
  | ok tt =>
  cases item with
  | ok kv =>
    obtain ⟨k, v⟩ := kv
    refine ⟨?_, ?_, ?_, ?_,
      fun _ => ⟨encodePair k v, STACK_TRUE, rest, ?_, ?_, Or.inl ⟨k, v, rfl, rfl⟩⟩⟩ <;>
      simp [hrl, hwl, hst, hrw, hlk, hop, htt, Env.push]
  | error e3 =>
    refine ⟨?_, ?_, ?_, ?_,
      fun _ => ⟨STACK_EMPTY_CLOSURE, STACK_FALSE, rest, ?_, ?_, Or.inr ⟨rfl, rfl⟩⟩⟩ <;>
      simp [hrl, hwl, hst, hrw, hlk, hop, htt, Env.push]

/-- C5 witness: at a concrete state (process 1 holds the write transaction
over an empty store, cursor token `[9]`) the two forms agree on the handler
state, and the not-found outcome pushes the sentinel and false onto the same
remaining stack. -/
theorem cursor_forms_equiv_witness :
    (qcursor_op writeCursorHandler ⟨[[9]], []⟩ 1 cursorFirst).2.1
      = (cursorq_op writeCursorHandler ⟨[[9]], []⟩ 1 cursorFirst).2.1 ∧
    ∃ x y r0,
      (qcursor_op writeCursorHandler ⟨[[9]], []⟩ 1 cursorFirst).2.2.stack = x :: r0 ∧
      (cursorq_op writeCursorHandler ⟨[[9]], []⟩ 1 cursorFirst).2.2.stack = y :: r0 ∧
      ((∃ k v, x = encodePair k v ∧ y = STACK_TRUE) ∨
       (x = STACK_EMPTY_CLOSURE ∧ y = STACK_FALSE)) := by
  have hx := cursor_forms_equiv writeCursorHandler ⟨[[9]], []⟩ 1 cursorFirst
  exact ⟨hx.2.1, hx.2.2.2.2 rfl⟩

end PumpkinDB
